import Mathlib

/-!
Shallow embedding of the data-preparation and forecast-invocation logic of
`app_motor.py` (a motorcycle-sales dashboard).

Modelling conventions:
* Calendar dates are day numbers (`Int`, days since 1970-01-01).
  `pd.to_datetime(col, errors="coerce")` is modelled by taking each raw date
  cell as `Option Int`: `some d` is a parseable date, `none` is `NaT`.
* A pandas DataFrame is a `Table`: a list of rows plus one flag per
  recognized column saying whether the column is present at all
  (a present column may still contain null cells, which are `none`).
* `random.choice` / `random.randint` consume an abstract stream of draws
  `g : Nat → Nat` (one draw per row index); a uniform draw from a set of
  size `k` is `g i % k`.
* The sort `data.sort_values("Tanggal")` is modelled with `List.insertionSort`
  on the date key: a sorted permutation of the rows, as pandas produces.
-/

/-- A row of the table. Each cell is `Option`-valued: `none` models a null
cell (`NaT`/`NaN`). When the corresponding column is absent from the table
(see `Table`), that field carries no information. -/
structure Row where
  tanggal : Option Int
  wilayah : Option String
  promosi : Option Int
  penjualan : Option Int
  namaProduk : Option String
deriving Repr, DecidableEq

/-- A DataFrame: per-column presence flags plus the rows. -/
structure Table where
  hasTanggal : Bool
  hasWilayah : Bool
  hasPromosi : Bool
  hasPenjualan : Bool
  hasNamaProduk : Bool
  rows : List Row
deriving Repr, DecidableEq

/-- Day number of the fixed epoch 2023-01-01 used by
`pd.date_range("2023-01-01", ...)` (days since 1970-01-01). -/
def epoch2023 : Int := 19358

/-- Line 82: the fixed region list `["Jakarta", "Bandung", "Surabaya", "Medan", "Yogyakarta"]`. -/
def wilayah_list : List String := ["Jakarta", "Bandung", "Surabaya", "Medan", "Yogyakarta"]

/-- Lines 73-76: if the `Tanggal` column is absent, synthesize it as
`pd.date_range("2023-01-01", periods=len(data), freq="D")`, i.e. row `i`
gets date `epoch2023 + i`. -/
def synthTanggal (t : Table) : Table :=
  if t.hasTanggal then t
  else { t with hasTanggal := true,
                rows := t.rows.enum.map fun p => { p.2 with tanggal := some (epoch2023 + p.1) } }

/-- Line 79, first half: `data.dropna(subset=["Tanggal"])` — drop the rows
whose date cell is null. -/
def dropnaTanggal (t : Table) : Table :=
  { t with rows := t.rows.filter fun r => r.tanggal.isSome }

/-- The sort key of a row: its date. After `dropnaTanggal` every date cell is
`some`, so the `getD` default is never consulted in the pipeline. -/
def keyOf (r : Row) : Int := r.tanggal.getD 0

/-- Row comparison by date, the key used by `sort_values("Tanggal")`. -/
def rowLE (a b : Row) : Prop := keyOf a ≤ keyOf b

instance : DecidableRel rowLE := fun a b => inferInstanceAs (Decidable (keyOf a ≤ keyOf b))

instance : IsTotal Row rowLE := ⟨fun a b => Int.le_total (keyOf a) (keyOf b)⟩

instance : IsTrans Row rowLE := ⟨fun _ _ _ h h' => le_trans h h'⟩

/-- Line 79, second half: `sort_values("Tanggal")` — reorder the rows into a
permutation sorted (non-decreasingly) by date. -/
def sortByTanggal (t : Table) : Table :=
  { t with rows := t.rows.insertionSort rowLE }

/-- Lines 83-84: backfill `Wilayah` with `random.choice(wilayah_list)` per row,
only when the whole column is absent. -/
def fillWilayah (gW : Nat → Nat) (t : Table) : Table :=
  if t.hasWilayah then t
  else { t with hasWilayah := true,
                rows := t.rows.enum.map fun p =>
                  { p.2 with wilayah := some (wilayah_list.getD (gW p.1 % wilayah_list.length) "") } }

/-- Lines 86-87: backfill `Promosi` with `random.choice([0, 1])` per row,
only when the whole column is absent. -/
def fillPromosi (gP : Nat → Nat) (t : Table) : Table :=
  if t.hasPromosi then t
  else { t with hasPromosi := true,
                rows := t.rows.enum.map fun p =>
                  { p.2 with promosi := some ((gP p.1 % 2 : Nat) : Int) } }

/-- Lines 89-90: backfill `Penjualan` with `random.randint(20, 200)` per row,
only when the whole column is absent. A uniform draw from the 181 integers
of `[20, 200]` is `20 + g i % 181`. -/
def fillPenjualan (gS : Nat → Nat) (t : Table) : Table :=
  if t.hasPenjualan then t
  else { t with hasPenjualan := true,
                rows := t.rows.enum.map fun p =>
                  { p.2 with penjualan := some (20 + ((gS p.1 % 181 : Nat) : Int)) } }

/-- The synthesized product label `f"Motor-{k}"`. -/
def motorLabel (k : Nat) : String := "Motor-" ++ toString k

/-- Lines 92-93: backfill `Nama_Produk` with `f"Motor-{i%5+1}"` for row index
`i`, only when the whole column is absent. -/
def fillNamaProduk (t : Table) : Table :=
  if t.hasNamaProduk then t
  else { t with hasNamaProduk := true,
                rows := t.rows.enum.map fun p =>
                  { p.2 with namaProduk := some (motorLabel (p.1 % 5 + 1)) } }

/-- Lines 82-93: the column-backfill stage, in source order. -/
def backfillAll (gW gP gS : Nat → Nat) (t : Table) : Table :=
  fillNamaProduk (fillPenjualan gS (fillPromosi gP (fillWilayah gW t)))

/-- Lines 73-93: the whole normalization pipeline producing the canonical
table `data`. -/
def prepare (gW gP gS : Nat → Nat) (t : Table) : Table :=
  backfillAll gW gP gS (sortByTanggal (dropnaTanggal (synthTanggal t)))

/-- Model of `pd.date_range(start, periods=n)` with daily frequency: the day
numbers `start, start+1, ..., start+n-1`. -/
def pd_date_range (start : Int) (periods : Nat) : List Int :=
  (List.range periods).map fun i : Nat => start + (i : Int)

/-- Line 164: `df_produk = data[data["Nama_Produk"] == produk]`. -/
def filterProduk (p : String) (t : Table) : List Row :=
  t.rows.filter fun r => r.namaProduk == some p

/-- Maximum of a list of integers (`Series.max()`); meaningful only on a
non-empty list. -/
def listMax : List Int → Int
  | [] => 0
  | [x] => x
  | x :: y :: xs => max x (listMax (y :: xs))

/-- `df_produk["Tanggal"].max()`. -/
def maxTanggal (rows : List Row) : Int := listMax (rows.map keyOf)

/-- The product series selected on the forecast page. -/
def dfProduk (gW gP gS : Nat → Nat) (t : Table) (p : String) : List Row :=
  filterProduk p (prepare gW gP gS t)

/-- Lines 171-174: `forecast_df`, the table pairing
`pd.date_range(df_produk["Tanggal"].max() + timedelta(days=1), periods=7)`
with the 7 forecast values. -/
def forecast_df (dfp : List Row) (preds : List Rat) : List (Int × Rat) :=
  (pd_date_range (maxTanggal dfp + 1) 7).zip preds

/-- Lines 166-192: the forecast page. The third-party ARIMA fit is abstracted
as an oracle `fitResult`: `some preds` if `ARIMA(...).fit().forecast(steps=7)`
returns predictions, `none` if anything in the `try` block raises. The page
never mutates the canonical table, so it returns the table it was given
alongside either the forecast table or the caught-error message of line 192. -/
def prediksiDemand (data : Table) (p : String) (fitResult : Option (List Rat)) :
    Table × Except String (List (Int × Rat)) :=
  match fitResult with
  | none => (data, Except.error "Model gagal dijalankan")
  | some preds => (data, Except.ok (forecast_df (filterProduk p data) preds))

/-- Lines 222-223: `recent_data = data[data["Tanggal"] >= data["Tanggal"].max() - timedelta(days=7)]`. -/
def recentData (d : Table) : List Row :=
  d.rows.filter fun r => decide (maxTanggal d.rows - 7 ≤ keyOf r)

/-! ### Column / flag preservation lemmas for the pipeline stages -/

/-- An `enum`-indexed row rewrite that leaves a projected field untouched
leaves the whole projected column untouched. -/
theorem map_proj_enum_map {β : Type} (l : List Row) (f : Nat × Row → Row) (proj : Row → β)
    (h : ∀ p : Nat × Row, proj (f p) = proj p.2) :
    (l.enum.map f).map proj = l.map proj := by
  rw [List.map_map]
  have h1 : proj ∘ f = fun p : Nat × Row => proj p.2 := funext h
  have h2 : (fun p : Nat × Row => proj p.2) = proj ∘ Prod.snd := rfl
  rw [h1, h2, ← List.map_map, List.enum_map_snd]

/-- An `enum`-indexed row rewrite whose projected field depends only on the
row index turns the projected column into a function of `List.range`. -/
theorem map_proj_enum_map_idx {β : Type} (l : List Row) (f : Nat × Row → Row) (proj : Row → β)
    (g : Nat → β) (h : ∀ p : Nat × Row, proj (f p) = g p.1) :
    (l.enum.map f).map proj = (List.range l.length).map g := by
  rw [List.map_map]
  have h1 : proj ∘ f = fun p : Nat × Row => g p.1 := funext h
  have h2 : (fun p : Nat × Row => g p.1) = g ∘ Prod.fst := rfl
  rw [h1, h2, ← List.map_map, List.enum_map_fst]

theorem tanggal_fillWilayah (gW : Nat → Nat) (t : Table) :
    ((fillWilayah gW t).rows.map fun r => r.tanggal) = t.rows.map fun r => r.tanggal := by
  unfold fillWilayah; split
  · rfl
  · exact map_proj_enum_map _ _ _ fun p => rfl

theorem tanggal_fillPromosi (gP : Nat → Nat) (t : Table) :
    ((fillPromosi gP t).rows.map fun r => r.tanggal) = t.rows.map fun r => r.tanggal := by
  unfold fillPromosi; split
  · rfl
  · exact map_proj_enum_map _ _ _ fun p => rfl

theorem tanggal_fillPenjualan (gS : Nat → Nat) (t : Table) :
    ((fillPenjualan gS t).rows.map fun r => r.tanggal) = t.rows.map fun r => r.tanggal := by
  unfold fillPenjualan; split
  · rfl
  · exact map_proj_enum_map _ _ _ fun p => rfl

theorem tanggal_fillNamaProduk (t : Table) :
    ((fillNamaProduk t).rows.map fun r => r.tanggal) = t.rows.map fun r => r.tanggal := by
  unfold fillNamaProduk; split
  · rfl
  · exact map_proj_enum_map _ _ _ fun p => rfl

theorem tanggal_backfillAll (gW gP gS : Nat → Nat) (t : Table) :
    ((backfillAll gW gP gS t).rows.map fun r => r.tanggal) = t.rows.map fun r => r.tanggal := by
  unfold backfillAll
  rw [tanggal_fillNamaProduk, tanggal_fillPenjualan, tanggal_fillPromosi, tanggal_fillWilayah]

theorem wilayah_fillPromosi (gP : Nat → Nat) (t : Table) :
    ((fillPromosi gP t).rows.map fun r => r.wilayah) = t.rows.map fun r => r.wilayah := by
  unfold fillPromosi; split
  · rfl
  · exact map_proj_enum_map _ _ _ fun p => rfl

theorem wilayah_fillPenjualan (gS : Nat → Nat) (t : Table) :
    ((fillPenjualan gS t).rows.map fun r => r.wilayah) = t.rows.map fun r => r.wilayah := by
  unfold fillPenjualan; split
  · rfl
  · exact map_proj_enum_map _ _ _ fun p => rfl

theorem wilayah_fillNamaProduk (t : Table) :
    ((fillNamaProduk t).rows.map fun r => r.wilayah) = t.rows.map fun r => r.wilayah := by
  unfold fillNamaProduk; split
  · rfl
  · exact map_proj_enum_map _ _ _ fun p => rfl

theorem promosi_fillWilayah (gW : Nat → Nat) (t : Table) :
    ((fillWilayah gW t).rows.map fun r => r.promosi) = t.rows.map fun r => r.promosi := by
  unfold fillWilayah; split
  · rfl
  · exact map_proj_enum_map _ _ _ fun p => rfl

theorem promosi_fillPenjualan (gS : Nat → Nat) (t : Table) :
    ((fillPenjualan gS t).rows.map fun r => r.promosi) = t.rows.map fun r => r.promosi := by
  unfold fillPenjualan; split
  · rfl
  · exact map_proj_enum_map _ _ _ fun p => rfl

theorem promosi_fillNamaProduk (t : Table) :
    ((fillNamaProduk t).rows.map fun r => r.promosi) = t.rows.map fun r => r.promosi := by
  unfold fillNamaProduk; split
  · rfl
  · exact map_proj_enum_map _ _ _ fun p => rfl

theorem penjualan_fillWilayah (gW : Nat → Nat) (t : Table) :
    ((fillWilayah gW t).rows.map fun r => r.penjualan) = t.rows.map fun r => r.penjualan := by
  unfold fillWilayah; split
  · rfl
  · exact map_proj_enum_map _ _ _ fun p => rfl

theorem penjualan_fillPromosi (gP : Nat → Nat) (t : Table) :
    ((fillPromosi gP t).rows.map fun r => r.penjualan) = t.rows.map fun r => r.penjualan := by
  unfold fillPromosi; split
  · rfl
  · exact map_proj_enum_map _ _ _ fun p => rfl

theorem penjualan_fillNamaProduk (t : Table) :
    ((fillNamaProduk t).rows.map fun r => r.penjualan) = t.rows.map fun r => r.penjualan := by
  unfold fillNamaProduk; split
  · rfl
  · exact map_proj_enum_map _ _ _ fun p => rfl

theorem namaProduk_fillWilayah (gW : Nat → Nat) (t : Table) :
    ((fillWilayah gW t).rows.map fun r => r.namaProduk) = t.rows.map fun r => r.namaProduk := by
  unfold fillWilayah; split
  · rfl
  · exact map_proj_enum_map _ _ _ fun p => rfl

theorem namaProduk_fillPromosi (gP : Nat → Nat) (t : Table) :
    ((fillPromosi gP t).rows.map fun r => r.namaProduk) = t.rows.map fun r => r.namaProduk := by
  unfold fillPromosi; split
  · rfl
  · exact map_proj_enum_map _ _ _ fun p => rfl

theorem namaProduk_fillPenjualan (gS : Nat → Nat) (t : Table) :
    ((fillPenjualan gS t).rows.map fun r => r.namaProduk) = t.rows.map fun r => r.namaProduk := by
  unfold fillPenjualan; split
  · rfl
  · exact map_proj_enum_map _ _ _ fun p => rfl

theorem fillWilayah_of_has (gW : Nat → Nat) (t : Table) (h : t.hasWilayah = true) :
    fillWilayah gW t = t := by
  unfold fillWilayah; rw [h]; rfl

theorem fillPromosi_of_has (gP : Nat → Nat) (t : Table) (h : t.hasPromosi = true) :
    fillPromosi gP t = t := by
  unfold fillPromosi; rw [h]; rfl

theorem fillPenjualan_of_has (gS : Nat → Nat) (t : Table) (h : t.hasPenjualan = true) :
    fillPenjualan gS t = t := by
  unfold fillPenjualan; rw [h]; rfl

theorem fillNamaProduk_of_has (t : Table) (h : t.hasNamaProduk = true) :
    fillNamaProduk t = t := by
  unfold fillNamaProduk; rw [h]; rfl

theorem hasPromosi_fillWilayah (gW : Nat → Nat) (t : Table) :
    (fillWilayah gW t).hasPromosi = t.hasPromosi := by
  unfold fillWilayah; split <;> rfl

theorem hasPenjualan_fillWilayah (gW : Nat → Nat) (t : Table) :
    (fillWilayah gW t).hasPenjualan = t.hasPenjualan := by
  unfold fillWilayah; split <;> rfl

theorem hasPenjualan_fillPromosi (gP : Nat → Nat) (t : Table) :
    (fillPromosi gP t).hasPenjualan = t.hasPenjualan := by
  unfold fillPromosi; split <;> rfl

theorem hasNamaProduk_fillWilayah (gW : Nat → Nat) (t : Table) :
    (fillWilayah gW t).hasNamaProduk = t.hasNamaProduk := by
  unfold fillWilayah; split <;> rfl

theorem hasNamaProduk_fillPromosi (gP : Nat → Nat) (t : Table) :
    (fillPromosi gP t).hasNamaProduk = t.hasNamaProduk := by
  unfold fillPromosi; split <;> rfl

theorem hasNamaProduk_fillPenjualan (gS : Nat → Nat) (t : Table) :
    (fillPenjualan gS t).hasNamaProduk = t.hasNamaProduk := by
  unfold fillPenjualan; split <;> rfl

theorem hasWilayah_synthTanggal (t : Table) :
    (synthTanggal t).hasWilayah = t.hasWilayah := by
  unfold synthTanggal; split <;> rfl

theorem hasPromosi_synthTanggal (t : Table) :
    (synthTanggal t).hasPromosi = t.hasPromosi := by
  unfold synthTanggal; split <;> rfl

theorem hasPenjualan_synthTanggal (t : Table) :
    (synthTanggal t).hasPenjualan = t.hasPenjualan := by
  unfold synthTanggal; split <;> rfl

theorem hasNamaProduk_synthTanggal (t : Table) :
    (synthTanggal t).hasNamaProduk = t.hasNamaProduk := by
  unfold synthTanggal; split <;> rfl

theorem rows_length_fillWilayah (gW : Nat → Nat) (t : Table) :
    (fillWilayah gW t).rows.length = t.rows.length := by
  unfold fillWilayah; split
  · rfl
  · simp

theorem rows_length_fillPromosi (gP : Nat → Nat) (t : Table) :
    (fillPromosi gP t).rows.length = t.rows.length := by
  unfold fillPromosi; split
  · rfl
  · simp

theorem rows_length_fillPenjualan (gS : Nat → Nat) (t : Table) :
    (fillPenjualan gS t).rows.length = t.rows.length := by
  unfold fillPenjualan; split
  · rfl
  · simp

theorem rows_length_fillNamaProduk (t : Table) :
    (fillNamaProduk t).rows.length = t.rows.length := by
  unfold fillNamaProduk; split
  · rfl
  · simp

/-! ### Facts about the date column through the pipeline -/

theorem keyOf_map_of_tanggal_map_eq {l l' : List Row}
    (h : (l.map fun r => r.tanggal) = l'.map fun r => r.tanggal) :
    l.map keyOf = l'.map keyOf := by
  have e : ∀ m : List Row, m.map keyOf = (m.map fun r => r.tanggal).map fun o => o.getD 0 := by
    intro m; rw [List.map_map]; rfl
  rw [e, e, h]

theorem allSome_of_tanggal_map_eq {l l' : List Row}
    (h : (l.map fun r => r.tanggal) = l'.map fun r => r.tanggal)
    (hs : ∀ r ∈ l, r.tanggal.isSome = true) :
    ∀ r ∈ l', r.tanggal.isSome = true := by
  intro r hr
  have hm : r.tanggal ∈ l'.map fun r => r.tanggal := List.mem_map_of_mem _ hr
  rw [← h] at hm
  obtain ⟨s, hs', hes⟩ := List.mem_map.mp hm
  rw [← hes]
  exact hs s hs'

theorem allSome_dropna (t : Table) :
    ∀ r ∈ (dropnaTanggal t).rows, r.tanggal.isSome = true := by
  intro r hr
  have h := List.mem_filter.mp hr
  simpa using h.2

theorem allSome_sort (t : Table) (hs : ∀ r ∈ t.rows, r.tanggal.isSome = true) :
    ∀ r ∈ (sortByTanggal t).rows, r.tanggal.isSome = true := by
  intro r hr
  exact hs r ((List.perm_insertionSort rowLE t.rows).mem_iff.mp hr)

theorem sorted_sortByTanggal (t : Table) :
    ((sortByTanggal t).rows.map keyOf).Pairwise (· ≤ ·) :=
  List.pairwise_map.mpr (List.sorted_insertionSort rowLE t.rows)

theorem tanggal_map_prepare (gW gP gS : Nat → Nat) (t : Table) :
    ((prepare gW gP gS t).rows.map fun r => r.tanggal)
      = (sortByTanggal (dropnaTanggal (synthTanggal t))).rows.map fun r => r.tanggal :=
  tanggal_backfillAll ..

/-! ### `listMax` / `maxTanggal` facts -/

theorem listMax_mem : ∀ l : List Int, l ≠ [] → listMax l ∈ l
  | [], h => absurd rfl h
  | [x], _ => by simp [listMax]
  | x :: y :: xs, _ => by
    show listMax (x :: y :: xs) ∈ x :: y :: xs
    rw [show listMax (x :: y :: xs) = max x (listMax (y :: xs)) from rfl]
    rcases max_choice x (listMax (y :: xs)) with h | h <;> rw [h]
    · exact List.mem_cons_self x (y :: xs)
    · exact List.mem_cons_of_mem x (listMax_mem (y :: xs) (by simp))

theorem le_listMax : ∀ l : List Int, ∀ x ∈ l, x ≤ listMax l
  | [], x, hx => by simp at hx
  | [a], x, hx => by
    rw [List.mem_singleton] at hx
    rw [hx]
    exact le_refl _
  | a :: b :: xs, x, hx => by
    show x ≤ max a (listMax (b :: xs))
    rcases List.mem_cons.mp hx with h | h
    · rw [h]; exact le_max_left _ _
    · exact le_trans (le_listMax (b :: xs) x h) (le_max_right _ _)

/-! ### `pd_date_range` facts -/

theorem pd_date_range_length (s : Int) (n : Nat) : (pd_date_range s n).length = n := by
  show ((List.range n).map fun i : Nat => s + (i : Int)).length = n
  rw [List.length_map, List.length_range]

theorem pd_date_range_seven (s : Int) :
    pd_date_range s 7 = [s, s + 1, s + 2, s + 3, s + 4, s + 5, s + 6] := by
  have h : List.range 7 = [0, 1, 2, 3, 4, 5, 6] := rfl
  simp [pd_date_range, h]

/-! ### `filterMap` of a fully-`some` column -/

theorem filterMap_of_map_some {β : Type} {proj : Row → Option β} {l : List Row} {xs : List β}
    (h : l.map proj = xs.map some) :
    l.filterMap proj = xs := by
  have h1 : l.filterMap proj = (l.map proj).filterMap id :=
    (List.filterMap_map proj id l).symm
  rw [h1, h, List.filterMap_map]
  simp

/-! ### Synthesized-date characterization -/

theorem synthTanggal_of_has (t : Table) (h : t.hasTanggal = true) : synthTanggal t = t := by
  unfold synthTanggal; rw [h]; rfl

theorem synthTanggal_tanggal_map (t : Table) (h : t.hasTanggal = false) :
    ((synthTanggal t).rows.map fun r => r.tanggal)
      = (List.range t.rows.length).map fun i : Nat => some (epoch2023 + (i : Int)) := by
  unfold synthTanggal
  rw [h]
  simp only [Bool.false_eq_true, if_false]
  apply map_proj_enum_map_idx
  intro p
  rfl

theorem allSome_synth (t : Table) (h : t.hasTanggal = false) :
    ∀ r ∈ (synthTanggal t).rows, r.tanggal.isSome = true := by
  intro r hr
  have hm : r.tanggal ∈ (synthTanggal t).rows.map fun r => r.tanggal := List.mem_map_of_mem _ hr
  rw [synthTanggal_tanggal_map t h] at hm
  obtain ⟨i, _, hei⟩ := List.mem_map.mp hm
  rw [← hei]
  rfl

theorem sorted_synth (t : Table) (h : t.hasTanggal = false) :
    ((synthTanggal t).rows.map keyOf).Pairwise (· ≤ ·) := by
  have e : (synthTanggal t).rows.map keyOf
      = (List.range t.rows.length).map fun i : Nat => epoch2023 + (i : Int) := by
    have e1 : (synthTanggal t).rows.map keyOf
        = ((synthTanggal t).rows.map fun r => r.tanggal).map fun o => o.getD 0 := by
      rw [List.map_map]; rfl
    rw [e1, synthTanggal_tanggal_map t h, List.map_map]
    rfl
  rw [e]
  refine List.Pairwise.map _ (fun a b hab => ?_) (List.pairwise_lt_range _)
  have hc : (a : Int) ≤ (b : Int) := by exact_mod_cast Nat.le_of_lt hab
  exact add_le_add_left hc epoch2023

theorem dropna_eq_self_of_allSome (t : Table)
    (h : ∀ r ∈ t.rows, r.tanggal.isSome = true) :
    (dropnaTanggal t).rows = t.rows :=
  List.filter_eq_self.mpr fun r hr => by simpa using h r hr

theorem sort_eq_self_of_sorted (t : Table)
    (h : (t.rows.map keyOf).Pairwise (· ≤ ·)) :
    (sortByTanggal t).rows = t.rows := by
  have h' : t.rows.Pairwise fun a b => keyOf a ≤ keyOf b := List.pairwise_map.mp h
  exact List.Sorted.insertionSort_eq h'

/-! ### Canonical-table characterizations -/

theorem canonical_allSome (gW gP gS : Nat → Nat) (t : Table) :
    ∀ r ∈ (prepare gW gP gS t).rows, r.tanggal.isSome = true :=
  allSome_of_tanggal_map_eq (tanggal_map_prepare gW gP gS t).symm
    (allSome_sort _ (allSome_dropna _))

theorem canonical_sorted (gW gP gS : Nat → Nat) (t : Table) :
    ((prepare gW gP gS t).rows.map keyOf).Pairwise (· ≤ ·) := by
  rw [keyOf_map_of_tanggal_map_eq (tanggal_map_prepare gW gP gS t)]
  exact sorted_sortByTanggal _

theorem prepare_tanggal_of_no_tanggal (gW gP gS : Nat → Nat) (t : Table)
    (h : t.hasTanggal = false) :
    ((prepare gW gP gS t).rows.map fun r => r.tanggal)
      = (List.range t.rows.length).map fun i : Nat => some (epoch2023 + (i : Int)) := by
  rw [tanggal_map_prepare]
  have hd : (dropnaTanggal (synthTanggal t)).rows = (synthTanggal t).rows :=
    dropna_eq_self_of_allSome _ (allSome_synth t h)
  have hsorted : ((dropnaTanggal (synthTanggal t)).rows.map keyOf).Pairwise (· ≤ ·) := by
    rw [hd]; exact sorted_synth t h
  rw [sort_eq_self_of_sorted _ hsorted, hd]
  exact synthTanggal_tanggal_map t h

theorem hasNamaProduk_presort (t : Table) :
    (sortByTanggal (dropnaTanggal (synthTanggal t))).hasNamaProduk = t.hasNamaProduk :=
  hasNamaProduk_synthTanggal t

theorem hasPenjualan_presort (t : Table) :
    (sortByTanggal (dropnaTanggal (synthTanggal t))).hasPenjualan = t.hasPenjualan :=
  hasPenjualan_synthTanggal t

theorem prepare_namaProduk_map (gW gP gS : Nat → Nat) (t : Table)
    (h : t.hasNamaProduk = false) :
    ((prepare gW gP gS t).rows.map fun r => r.namaProduk)
      = (List.range (prepare gW gP gS t).rows.length).map
          fun i : Nat => some (motorLabel (i % 5 + 1)) := by
  unfold prepare backfillAll
  have hflag : (fillPenjualan gS (fillPromosi gP (fillWilayah gW
      (sortByTanggal (dropnaTanggal (synthTanggal t)))))).hasNamaProduk = false := by
    rw [hasNamaProduk_fillPenjualan, hasNamaProduk_fillPromosi, hasNamaProduk_fillWilayah,
        hasNamaProduk_presort, h]
  rw [rows_length_fillNamaProduk]
  unfold fillNamaProduk
  rw [hflag]
  simp only [Bool.false_eq_true, if_false]
  apply map_proj_enum_map_idx
  intro p
  rfl

theorem prepare_penjualan_map (gW gP gS : Nat → Nat) (t : Table)
    (h : t.hasPenjualan = false) :
    ((prepare gW gP gS t).rows.map fun r => r.penjualan)
      = (List.range (prepare gW gP gS t).rows.length).map
          fun i : Nat => some (20 + ((gS i % 181 : Nat) : Int)) := by
  unfold prepare backfillAll
  rw [penjualan_fillNamaProduk]
  have hflag : (fillPromosi gP (fillWilayah gW
      (sortByTanggal (dropnaTanggal (synthTanggal t))))).hasPenjualan = false := by
    rw [hasPenjualan_fillPromosi, hasPenjualan_fillWilayah, hasPenjualan_presort, h]
  rw [rows_length_fillNamaProduk, rows_length_fillPenjualan]
  unfold fillPenjualan
  rw [hflag]
  simp only [Bool.false_eq_true, if_false]
  apply map_proj_enum_map_idx
  intro p
  rfl

/-! ### The set of synthesized product labels -/

theorem motor_toFinset (n : Nat) (h : 5 ≤ n) :
    ((List.range n).map fun i : Nat => motorLabel (i % 5 + 1)).toFinset
      = {"Motor-1", "Motor-2", "Motor-3", "Motor-4", "Motor-5"} := by
  apply Finset.ext
  intro s
  simp only [List.mem_toFinset, List.mem_map, List.mem_range]
  constructor
  · rintro ⟨i, hi, rfl⟩
    have h5 : i % 5 < 5 := Nat.mod_lt _ (by norm_num)
    have hcases : i % 5 = 0 ∨ i % 5 = 1 ∨ i % 5 = 2 ∨ i % 5 = 3 ∨ i % 5 = 4 := by omega
    rcases hcases with h0 | h0 | h0 | h0 | h0 <;> rw [h0] <;> decide
  · intro hs
    simp only [Finset.mem_insert, Finset.mem_singleton] at hs
    rcases hs with rfl | rfl | rfl | rfl | rfl
    · exact ⟨0, by omega, by decide⟩
    · exact ⟨1, by omega, by decide⟩
    · exact ⟨2, by omega, by decide⟩
    · exact ⟨3, by omega, by decide⟩
    · exact ⟨4, by omega, by decide⟩

/-! ### Example tables used as concrete instances -/

/-- A row with every cell null. -/
def blankRow : Row := ⟨none, none, none, none, none⟩

/-- A small table with all five columns present; its second row has null cells
in the optional columns. -/
def exFull : Table :=
  { hasTanggal := true, hasWilayah := true, hasPromosi := true, hasPenjualan := true,
    hasNamaProduk := true,
    rows := [{ blankRow with tanggal := some 100, wilayah := some "Jakarta",
                             promosi := some 1, penjualan := some 30,
                             namaProduk := some "Beat" },
             { blankRow with tanggal := some 98, namaProduk := some "Vario" }] }

/-- An input with 5 parseable-date rows and no product column. -/
def exNoProduk5 : Table :=
  { hasTanggal := true, hasWilayah := true, hasPromosi := true, hasPenjualan := true,
    hasNamaProduk := false,
    rows := [{ blankRow with tanggal := some 1 }, { blankRow with tanggal := some 2 },
             { blankRow with tanggal := some 3 }, { blankRow with tanggal := some 4 },
             { blankRow with tanggal := some 5 }] }

/-- An input with 2 parseable-date rows and no product column. -/
def exNoProduk2 : Table :=
  { hasTanggal := true, hasWilayah := true, hasPromosi := true, hasPenjualan := true,
    hasNamaProduk := false,
    rows := [{ blankRow with tanggal := some 10 }, { blankRow with tanggal := some 11 }] }

/-- An input of 30 rows with no date column at all. -/
def ex30 : Table :=
  { hasTanggal := false, hasWilayah := true, hasPromosi := true, hasPenjualan := true,
    hasNamaProduk := true, rows := List.replicate 30 blankRow }

/-- An input with one parseable-date row and no units-sold column. -/
def exNoPenjualan : Table :=
  { hasTanggal := true, hasWilayah := true, hasPromosi := true, hasPenjualan := false,
    hasNamaProduk := true,
    rows := [{ blankRow with tanggal := some 7 }] }

/-- A concrete 7-element prediction list standing for a successful
`forecast(steps=7)` result. -/
def predsEx : List Rat := List.replicate 7 0

/-! ### Claim theorems -/

/-- C1: for every product whose filtered units-sold series the ARIMA(1,1,1)
fit succeeds on (so the filtered series is non-empty and `forecast(steps=7)`
returned its 7 predictions), `forecast_df` has exactly 7 rows; its dates equal
`pd.date_range(max+1, periods=7)`, i.e. they start at the day immediately
after the maximum date of that product's series in the canonical table and
advance by exactly one day per row; and that maximum is attained by a row of
the series. -/
theorem c1_forecast_seven_contiguous (gW gP gS : Nat → Nat) (t : Table) (p : String)
    (preds : List Rat)
    (hne : dfProduk gW gP gS t p ≠ [])
    (hlen : preds.length = 7) :
    (forecast_df (dfProduk gW gP gS t p) preds).length = 7 ∧
    ((forecast_df (dfProduk gW gP gS t p) preds).map Prod.fst)
      = pd_date_range (maxTanggal (dfProduk gW gP gS t p) + 1) 7 ∧
    ((forecast_df (dfProduk gW gP gS t p) preds).map Prod.fst).head?
      = some (maxTanggal (dfProduk gW gP gS t p) + 1) ∧
    (∀ i : Nat, i + 1 < 7 →
      ((forecast_df (dfProduk gW gP gS t p) preds).map Prod.fst).getD (i + 1) 0
        = ((forecast_df (dfProduk gW gP gS t p) preds).map Prod.fst).getD i 0 + 1) ∧
    maxTanggal (dfProduk gW gP gS t p) ∈ (dfProduk gW gP gS t p).map keyOf := by
  have hmap : ((forecast_df (dfProduk gW gP gS t p) preds).map Prod.fst)
      = pd_date_range (maxTanggal (dfProduk gW gP gS t p) + 1) 7 := by
    apply List.map_fst_zip
    rw [pd_date_range_length, hlen]
  refine ⟨?_, hmap, ?_, ?_, ?_⟩
  · unfold forecast_df
    rw [List.length_zip, pd_date_range_length, hlen]
    decide
  · rw [hmap, pd_date_range_seven]
    rfl
  · intro i hi
    rw [hmap, pd_date_range_seven]
    have hcases : i = 0 ∨ i = 1 ∨ i = 2 ∨ i = 3 ∨ i = 4 ∨ i = 5 := by omega
    rcases hcases with h0 | h0 | h0 | h0 | h0 | h0 <;> rw [h0] <;> simp [List.getD] <;> ring
  · have hmapne : (dfProduk gW gP gS t p).map keyOf ≠ [] :=
      fun hnil => hne (List.map_eq_nil_iff.mp hnil)
    exact listMax_mem _ hmapne

/-- C1, witness: the concrete table `exFull` with product `"Beat"` and a
7-element prediction list. -/
theorem c1_witness :
    (forecast_df (dfProduk id id id exFull "Beat") predsEx).length = 7 ∧
    ((forecast_df (dfProduk id id id exFull "Beat") predsEx).map Prod.fst)
      = pd_date_range (maxTanggal (dfProduk id id id exFull "Beat") + 1) 7 ∧
    ((forecast_df (dfProduk id id id exFull "Beat") predsEx).map Prod.fst).head?
      = some (maxTanggal (dfProduk id id id exFull "Beat") + 1) ∧
    (∀ i : Nat, i + 1 < 7 →
      ((forecast_df (dfProduk id id id exFull "Beat") predsEx).map Prod.fst).getD (i + 1) 0
        = ((forecast_df (dfProduk id id id exFull "Beat") predsEx).map Prod.fst).getD i 0 + 1) ∧
    maxTanggal (dfProduk id id id exFull "Beat") ∈ (dfProduk id id id exFull "Beat").map keyOf :=
  c1_forecast_seven_contiguous id id id exFull "Beat" predsEx (by decide) (by decide)

/-- C2: for every input table, the canonical table's date column contains no
null values and is monotonically non-decreasing. -/
theorem c2_canonical_dates (gW gP gS : Nat → Nat) (t : Table) :
    (∀ r ∈ (prepare gW gP gS t).rows, r.tanggal.isSome = true) ∧
    ((prepare gW gP gS t).rows.map keyOf).Pairwise (· ≤ ·) :=
  ⟨canonical_allSome gW gP gS t, canonical_sorted gW gP gS t⟩

/-- C4, amended: when the product column is absent, row `i` of the canonical
table receives label `Motor-(i % 5 + 1)` (for every such table, of any size),
and whenever the canonical table has at least 5 rows the set of distinct
synthesized labels has size exactly 5. -/
theorem c4_labels (gW gP gS : Nat → Nat) (t : Table)
    (hN : t.hasNamaProduk = false) :
    (((prepare gW gP gS t).rows.map fun r => r.namaProduk)
      = (List.range (prepare gW gP gS t).rows.length).map
          fun i : Nat => some (motorLabel (i % 5 + 1))) ∧
    (5 ≤ (prepare gW gP gS t).rows.length →
      ((prepare gW gP gS t).rows.filterMap fun r => r.namaProduk).toFinset.card = 5) := by
  refine ⟨prepare_namaProduk_map gW gP gS t hN, fun hlen => ?_⟩
  have hfm : ((prepare gW gP gS t).rows.filterMap fun r => r.namaProduk)
      = (List.range (prepare gW gP gS t).rows.length).map
          fun i : Nat => motorLabel (i % 5 + 1) := by
    apply filterMap_of_map_some
    rw [prepare_namaProduk_map gW gP gS t hN, List.map_map]
    rfl
  rw [hfm, motor_toFinset _ hlen]
  decide

/-- C4, counterexample to the claim as stated: a 2-row input without a product
column yields only 2 distinct synthesized labels, not 5. -/
theorem c4_counterexample :
    exNoProduk2.hasNamaProduk = false ∧
    ((prepare id id id exNoProduk2).rows.filterMap fun r => r.namaProduk).toFinset.card ≠ 5 := by
  decide

/-- C4, witness for the amended claim: a 5-row input without a product
column, discharging both the absent-column hypothesis and the at-least-5-rows
condition of the cardinality clause. -/
theorem c4_witness :
    (((prepare id id id exNoProduk5).rows.map fun r => r.namaProduk)
      = (List.range (prepare id id id exNoProduk5).rows.length).map
          fun i : Nat => some (motorLabel (i % 5 + 1))) ∧
    ((prepare id id id exNoProduk5).rows.filterMap fun r => r.namaProduk).toFinset.card = 5 :=
  ⟨(c4_labels id id id exNoProduk5 rfl).1,
   (c4_labels id id id exNoProduk5 rfl).2 (by decide)⟩

/-- C5: when the input has no date column, the canonical table's date column
is the contiguous daily sequence starting at the 2023-01-01 epoch, with length
equal to the input's row count. -/
theorem c5_synth_dates (gW gP gS : Nat → Nat) (t : Table) (h : t.hasTanggal = false) :
    (((prepare gW gP gS t).rows.map fun r => r.tanggal)
      = (List.range t.rows.length).map fun i : Nat => some (epoch2023 + (i : Int))) ∧
    (prepare gW gP gS t).rows.length = t.rows.length := by
  have e := prepare_tanggal_of_no_tanggal gW gP gS t h
  refine ⟨e, ?_⟩
  have hl := congrArg List.length e
  simpa using hl

/-- C5, witness: the 30-row date-less input of the spec scenario. -/
theorem c5_witness :
    (((prepare id id id ex30).rows.map fun r => r.tanggal)
      = (List.range ex30.rows.length).map fun i : Nat => some (epoch2023 + (i : Int))) ∧
    (prepare id id id ex30).rows.length = ex30.rows.length :=
  c5_synth_dates id id id ex30 rfl

/-- C6: the backfill stage rewrites a column only when that column is entirely
absent; a present column's cells (null cells included) all pass through the
backfill stage unchanged. -/
theorem c6_backfill_frame (gW gP gS : Nat → Nat) (u : Table) :
    (u.hasWilayah = true →
      ((backfillAll gW gP gS u).rows.map fun r => r.wilayah) = u.rows.map fun r => r.wilayah) ∧
    (u.hasPromosi = true →
      ((backfillAll gW gP gS u).rows.map fun r => r.promosi) = u.rows.map fun r => r.promosi) ∧
    (u.hasPenjualan = true →
      ((backfillAll gW gP gS u).rows.map fun r => r.penjualan) = u.rows.map fun r => r.penjualan) ∧
    (u.hasNamaProduk = true →
      ((backfillAll gW gP gS u).rows.map fun r => r.namaProduk) = u.rows.map fun r => r.namaProduk) := by
  refine ⟨fun hW => ?_, fun hP => ?_, fun hS => ?_, fun hN => ?_⟩
  · unfold backfillAll
    rw [wilayah_fillNamaProduk, wilayah_fillPenjualan, wilayah_fillPromosi,
        fillWilayah_of_has gW u hW]
  · unfold backfillAll
    rw [promosi_fillNamaProduk, promosi_fillPenjualan,
        fillPromosi_of_has gP _ (by rw [hasPromosi_fillWilayah]; exact hP),
        promosi_fillWilayah]
  · unfold backfillAll
    rw [penjualan_fillNamaProduk,
        fillPenjualan_of_has gS _
          (by rw [hasPenjualan_fillPromosi, hasPenjualan_fillWilayah]; exact hS),
        penjualan_fillPromosi, penjualan_fillWilayah]
  · unfold backfillAll
    rw [fillNamaProduk_of_has _
          (by rw [hasNamaProduk_fillPenjualan, hasNamaProduk_fillPromosi,
                  hasNamaProduk_fillWilayah]; exact hN),
        namaProduk_fillPenjualan, namaProduk_fillPromosi, namaProduk_fillWilayah]

/-- C6, witness: `exFull` has all four backfillable columns present (with null
cells in its second row) and every column passes through unchanged. -/
theorem c6_witness :
    ((backfillAll id id id exFull).rows.map fun r => r.wilayah)
      = (exFull.rows.map fun r => r.wilayah) ∧
    ((backfillAll id id id exFull).rows.map fun r => r.promosi)
      = (exFull.rows.map fun r => r.promosi) ∧
    ((backfillAll id id id exFull).rows.map fun r => r.penjualan)
      = (exFull.rows.map fun r => r.penjualan) ∧
    ((backfillAll id id id exFull).rows.map fun r => r.namaProduk)
      = (exFull.rows.map fun r => r.namaProduk) :=
  ⟨(c6_backfill_frame id id id exFull).1 rfl,
   (c6_backfill_frame id id id exFull).2.1 rfl,
   (c6_backfill_frame id id id exFull).2.2.1 rfl,
   (c6_backfill_frame id id id exFull).2.2.2 rfl⟩

/-- C7: when the ARIMA fit raises (oracle `none`), the forecast page reports
the caught non-fatal message and hands back the canonical table unchanged;
for any product whose fit succeeds, the same session still produces its
forecast table. -/
theorem c7_fit_failure_recoverable (data : Table) (p : String) :
    prediksiDemand data p none = (data, Except.error "Model gagal dijalankan") ∧
    (∀ p' : String, ∀ preds : List Rat,
      (prediksiDemand data p' (some preds)).1 = data ∧
      (prediksiDemand data p' (some preds)).2
        = Except.ok (forecast_df (filterProduk p' data) preds)) :=
  ⟨rfl, fun _ _ => ⟨rfl, rfl⟩⟩

/-- C8: when the units-sold column is absent, every synthesized value in the
canonical table lies in the closed interval [20, 200]. -/
theorem c8_synth_penjualan_range (gW gP gS : Nat → Nat) (t : Table)
    (h : t.hasPenjualan = false) :
    ∀ v ∈ (prepare gW gP gS t).rows.filterMap fun r => r.penjualan,
      20 ≤ v ∧ v ≤ 200 := by
  intro v hv
  have hfm : ((prepare gW gP gS t).rows.filterMap fun r => r.penjualan)
      = (List.range (prepare gW gP gS t).rows.length).map
          fun i : Nat => 20 + ((gS i % 181 : Nat) : Int) := by
    apply filterMap_of_map_some
    rw [prepare_penjualan_map gW gP gS t h, List.map_map]
    rfl
  rw [hfm] at hv
  obtain ⟨i, _, rfl⟩ := List.mem_map.mp hv
  have h1 : gS i % 181 < 181 := Nat.mod_lt _ (by norm_num)
  constructor <;> omega

/-- C8, witness: a one-row input without a units-sold column, with the
all-zero draw stream, synthesizes the value 20, which lies in [20, 200]. -/
theorem c8_witness : 20 ≤ (20 : Int) ∧ (20 : Int) ≤ 200 :=
  c8_synth_penjualan_range (fun _ => 0) (fun _ => 0) (fun _ => 0) exNoPenjualan rfl 20 (by decide)

/-- C9: for every non-empty canonical table the weekly filter keeps at least
the row carrying the maximum date, so the weekly-insight warning branch is
unreachable. -/
theorem c9_recent_nonempty (gW gP gS : Nat → Nat) (t : Table)
    (h : (prepare gW gP gS t).rows ≠ []) :
    recentData (prepare gW gP gS t) ≠ [] := by
  have hmapne : (prepare gW gP gS t).rows.map keyOf ≠ [] :=
    fun hnil => h (List.map_eq_nil_iff.mp hnil)
  obtain ⟨r, hr, hkey⟩ := List.mem_map.mp (listMax_mem _ hmapne)
  have hfilter : r ∈ recentData (prepare gW gP gS t) := by
    apply List.mem_filter.mpr
    refine ⟨hr, ?_⟩
    rw [decide_eq_true_iff, maxTanggal, ← hkey]
    omega
  intro hnil
  rw [hnil] at hfilter
  exact List.not_mem_nil r hfilter

/-- C9, witness: the non-empty concrete table `exFull`. -/
theorem c9_witness : recentData (prepare id id id exFull) ≠ [] :=
  c9_recent_nonempty id id id exFull (by decide)

/-- C10: when all five recognized columns are present, normalization consults
no random draw: two runs with arbitrary, different draw streams produce
identical canonical tables. -/
theorem c10_deterministic (t : Table) (gW gP gS gW' gP' gS' : Nat → Nat)
    (h1 : t.hasTanggal = true) (h2 : t.hasWilayah = true) (h3 : t.hasPromosi = true)
    (h4 : t.hasPenjualan = true) (h5 : t.hasNamaProduk = true) :
    prepare gW gP gS t = prepare gW' gP' gS' t := by
  unfold prepare backfillAll
  rw [synthTanggal_of_has t h1]
  have hW : ∀ g : Nat → Nat,
      fillWilayah g (sortByTanggal (dropnaTanggal t)) = sortByTanggal (dropnaTanggal t) :=
    fun g => fillWilayah_of_has g _ h2
  rw [hW, hW]
  have hP : ∀ g : Nat → Nat,
      fillPromosi g (sortByTanggal (dropnaTanggal t)) = sortByTanggal (dropnaTanggal t) :=
    fun g => fillPromosi_of_has g _ h3
  rw [hP, hP]
  have hS : ∀ g : Nat → Nat,
      fillPenjualan g (sortByTanggal (dropnaTanggal t)) = sortByTanggal (dropnaTanggal t) :=
    fun g => fillPenjualan_of_has g _ h4
  rw [hS, hS]

/-- C10, witness: two different draw-stream triples on the all-columns-present
table `exFull` give the same canonical table. -/
theorem c10_witness :
    prepare (fun n => n) (fun n => n) (fun n => n) exFull
      = prepare (fun _ => 3) (fun _ => 1) (fun _ => 4) exFull :=
  c10_deterministic exFull (fun n => n) (fun n => n) (fun n => n)
    (fun _ => 3) (fun _ => 1) (fun _ => 4) rfl rfl rfl rfl rfl
